import Mathlib

/-!
Verification of the pyland core: viewport clamping (map_viewer.cpp),
the object registry (object_manager.cpp), per-frame render passes
(map_viewer.cpp), and the window/surface lifecycle (game_window.cpp).
The C++ is shallowly embedded: pure float arithmetic is idealised as
exact rational arithmetic, stateful code is explicit state passing, and
fallible code returns Except values.
-/

/-- Embedding of centre_point_in_range (map_viewer.cpp:319-336).
The local variable bound_offset = point - bound / 2 is inlined; the C++
else-if chain is kept as written (the final fall-through branch, which
leaves bound_offset unclamped, is unreachable by trichotomy). -/
def centre_point_in_range (point length bound : ℚ) : ℚ :=
  if length ≥ bound then
    min (max (point - bound / 2) 0) (length - bound)
  else if bound ≥ length then
    max (min (point - bound / 2) 0) (length - bound)
  else
    point - bound / 2

/-- C1: for non-negative length and bound and any point, the returned
offset lies in [0, length - bound] when bound ≤ length, and in
[length - bound, 0] when bound ≥ length. -/
theorem c1_centre_point_clamping_law (point length bound : ℚ)
    (hl : 0 ≤ length) (hb : 0 ≤ bound) :
    (bound ≤ length →
      0 ≤ centre_point_in_range point length bound ∧
      centre_point_in_range point length bound ≤ length - bound) ∧
    (length ≤ bound →
      length - bound ≤ centre_point_in_range point length bound ∧
      centre_point_in_range point length bound ≤ 0) := by
  unfold centre_point_in_range
  constructor
  · intro h
    rw [if_pos (show length ≥ bound from h)]
    exact ⟨le_min (le_max_right _ _) (sub_nonneg.mpr h), min_le_right _ _⟩
  · intro h
    by_cases hbl : length ≥ bound
    · have heq : length - bound = 0 := sub_eq_zero.mpr (le_antisymm h hbl)
      rw [if_pos hbl, heq]
      exact ⟨le_min (le_max_right _ _) le_rfl, min_le_right _ _⟩
    · rw [if_neg hbl, if_pos (show bound ≥ length from h)]
      exact ⟨le_max_right _ _,
        max_le (min_le_right _ _) (sub_nonpos.mpr h)⟩

/-- Witness for C1 at the spec example length = 10, bound = 4, point = 1
(expected offset 0). -/
theorem c1_centre_point_clamping_law_witness :
    (0 : ℚ) ≤ 10 ∧ (0 : ℚ) ≤ 4 ∧ (4 : ℚ) ≤ 10 ∧
    (0 ≤ centre_point_in_range 1 10 4 ∧
     centre_point_in_range 1 10 4 ≤ 10 - 4) :=
  ⟨by norm_num, by norm_num, by norm_num,
    (c1_centre_point_clamping_law 1 10 4 (by norm_num) (by norm_num)).1
      (by norm_num)⟩

/-- C6: re-applying centre_point_in_range with the already-clamped
offset plus bound / 2 as the new centre point yields the same offset. -/
theorem c6_centre_point_idempotent (point length bound : ℚ)
    (hl : 0 ≤ length) (hb : 0 ≤ bound) :
    centre_point_in_range
        (centre_point_in_range point length bound + bound / 2)
        length bound
      = centre_point_in_range point length bound := by
  unfold centre_point_in_range
  by_cases h : length ≥ bound
  · rw [if_pos h, if_pos h, add_sub_cancel_right]
    have hr0 : 0 ≤ min (max (point - bound / 2) 0) (length - bound) :=
      le_min (le_max_right _ _) (sub_nonneg.mpr h)
    have hr1 : min (max (point - bound / 2) 0) (length - bound)
        ≤ length - bound := min_le_right _ _
    rw [max_eq_left hr0, min_eq_left hr1]
  · have hbl : bound ≥ length := le_of_lt (lt_of_not_ge h)
    rw [if_neg h, if_pos hbl, if_neg h, if_pos hbl, add_sub_cancel_right]
    have hr0 : max (min (point - bound / 2) 0) (length - bound) ≤ 0 :=
      max_le (min_le_right _ _) (sub_nonpos.mpr hbl)
    have hr1 : length - bound
        ≤ max (min (point - bound / 2) 0) (length - bound) :=
      le_max_right _ _
    rw [min_eq_left hr0, max_eq_left hr1]

/-- Witness for C6 at the spec example length = 4, bound = 10, point = 2
(offset -3). -/
theorem c6_centre_point_idempotent_witness :
    centre_point_in_range (centre_point_in_range 2 4 10 + 10 / 2) 4 10
      = centre_point_in_range 2 4 10 :=
  c6_centre_point_idempotent 2 4 10 (by norm_num) (by norm_num)

/-!
Object registry (object_manager.cpp). The singleton's mutable state —
the static counter next_object_id and the id-to-shared-pointer map
objects — becomes an explicit RegState record threaded through the
operations. A shared_ptr<Object> that may be null becomes Option Object.
-/

/-- The dynamic kind of a registered entity (Sprite vs MapObject),
used by the templated getter to detect an unexpected kind. -/
inductive ObjKind where
  | sprite
  | mapObject
  deriving DecidableEq

/-- A registered entity: its id field (set by get_next_id), its dynamic
kind, and its renderable component's shader, with none modelling a null
shader pointer. -/
structure Object where
  id : Int
  kind : ObjKind
  shader : Option Nat
  deriving DecidableEq

/-- The ObjectManager singleton's state: the static counter
next_object_id (object_manager.cpp:16) and the objects map. -/
structure RegState where
  next_object_id : Int
  objects : Int → Option Object

/-- The registry state at process start: counter 1, empty map. -/
def initRegState : RegState :=
  { next_object_id := 1, objects := fun _ => none }

/-- Embedding of ObjectManager::get_next_id (object_manager.cpp:19-25):
stores the current counter in the object, returns that value
(post-increment), and bumps the counter. Result: (returned id, updated
object, updated state). -/
def get_next_id (st : RegState) (o : Object) : Int × Object × RegState :=
  (st.next_object_id,
   { o with id := st.next_object_id },
   { st with next_object_id := st.next_object_id + 1 })

/-- Embedding of ObjectManager::is_valid_object_id
(object_manager.cpp:27-29): 0 < id < next_object_id. -/
def is_valid_object_id (st : RegState) (i : Int) : Bool :=
  decide (0 < i ∧ i < st.next_object_id)

/-- Embedding of ObjectManager::add_object (object_manager.cpp:32-46):
rejects a null pointer or an invalid id (logged), otherwise stores the
entity under its id via operator[], overwriting any existing entry. -/
def add_object (st : RegState) (e : Option Object) : Bool × RegState :=
  match e with
  | none => (false, st)
  | some o =>
    if is_valid_object_id st o.id then
      (true,
        { st with objects := fun i => if i = o.id then some o else st.objects i })
    else
      (false, st)

/-- Embedding of ObjectManager::remove_object (object_manager.cpp:48-54):
erases the entry when present, otherwise only logs. -/
def remove_object (st : RegState) (k : Int) : RegState :=
  if (st.objects k).isSome then
    { st with objects := fun i => if i = k then none else st.objects i }
  else
    st

/-- Modelled from the spec: ObjectManager::get_object is a template
defined in object_manager.hpp, which is not part of the sources here;
per the spec it returns the shared entity, or an empty result if the id
is not present or the entity is of an unexpected kind. -/
def get_object (st : RegState) (kind : ObjKind) (k : Int) : Option Object :=
  match st.objects k with
  | none => none
  | some o => if o.kind = kind then some o else none

/-- Ids handed out by running get_next_id once per entity of a list,
threading the registry state left to right. -/
def alloc_ids (st : RegState) : List Object → List Int
  | [] => []
  | o :: os => (get_next_id st o).1 :: alloc_ids (get_next_id st o).2.2 os

/-- The ids allocated from any state are consecutive integers starting
at the state's counter. -/
theorem alloc_ids_eq_range (os : List Object) :
    ∀ st : RegState,
      alloc_ids st os
        = (List.range os.length).map
            (fun i : Nat => st.next_object_id + (i : Int)) := by
  induction os with
  | nil => intro st; simp [alloc_ids]
  | cons o os ih =>
    intro st
    simp only [alloc_ids, get_next_id, ih, List.length_cons,
      List.range_succ_eq_map, List.map_cons, List.map_map]
    refine List.cons_eq_cons.mpr ⟨by norm_num, ?_⟩
    apply List.map_congr_left
    intro i _
    simp only [Function.comp_apply]
    push_cast
    ring

/-- C8: from the initial registry state, allocating ids for the
entities of a list hands out exactly 1, 2, ..., N in order with no
repetition; each call returns the current counter, stores the same
value in the entity, and increments the counter by one. -/
theorem c8_allocation_sequence (os : List Object) :
    alloc_ids initRegState os
      = (List.range os.length).map (fun i : Nat => 1 + (i : Int)) ∧
    (alloc_ids initRegState os).Nodup ∧
    (∀ (st : RegState) (o : Object),
      (get_next_id st o).1 = st.next_object_id ∧
      (get_next_id st o).2.1.id = st.next_object_id ∧
      (get_next_id st o).2.2.next_object_id = st.next_object_id + 1) := by
  refine ⟨alloc_ids_eq_range os initRegState, ?_, ?_⟩
  · rw [alloc_ids_eq_range os initRegState]
    apply List.Nodup.map
    · intro a b hab
      simpa using hab
    · exact List.nodup_range os.length
  · intro st o
    exact ⟨rfl, rfl, rfl⟩

/-!
Registry operation sequences, for the counter-monotonicity invariant.
-/

/-- One mutating call against the ObjectManager singleton. -/
inductive RegOp where
  | add (e : Option Object)
  | remove (k : Int)
  | alloc (o : Object)

/-- Effect of one registry call on the singleton state. -/
def apply_op (st : RegState) : RegOp → RegState
  | RegOp.add e => (add_object st e).2
  | RegOp.remove k => remove_object st k
  | RegOp.alloc o => (get_next_id st o).2.2

/-- Effect of a sequence of registry calls, first call first. -/
def apply_ops (st : RegState) : List RegOp → RegState
  | [] => st
  | op :: ops => apply_ops (apply_op st op) ops

/-- A single registry call never decreases the id counter. -/
theorem apply_op_next_mono (st : RegState) (op : RegOp) :
    st.next_object_id ≤ (apply_op st op).next_object_id := by
  cases op with
  | add e =>
    cases e with
    | none => exact le_rfl
    | some o =>
      simp only [apply_op, add_object]
      split <;> exact le_rfl
  | remove k =>
    simp only [apply_op, remove_object]
    split <;> exact le_rfl
  | alloc o => exact le_of_lt (lt_add_one _)

/-- A sequence of registry calls never decreases the id counter. -/
theorem apply_ops_next_mono (ops : List RegOp) :
    ∀ st : RegState,
      st.next_object_id ≤ (apply_ops st ops).next_object_id := by
  induction ops with
  | nil => intro st; exact le_rfl
  | cons op ops ih =>
    intro st
    exact le_trans (apply_op_next_mono st op) (ih (apply_op st op))

/-- C9: add and remove leave next_object_id unchanged, allocation
increments it, and an id that is_valid accepts stays accepted after any
sequence of add, remove and allocate calls. -/
theorem c9_id_validity_monotone (st : RegState) (ops : List RegOp) (k : Int) :
    st.next_object_id ≤ (apply_ops st ops).next_object_id ∧
    (∀ e : Option Object,
      (add_object st e).2.next_object_id = st.next_object_id) ∧
    (∀ j : Int, (remove_object st j).next_object_id = st.next_object_id) ∧
    (∀ o : Object,
      (get_next_id st o).2.2.next_object_id = st.next_object_id + 1) ∧
    (is_valid_object_id st k = true →
      is_valid_object_id (apply_ops st ops) k = true) := by
  refine ⟨apply_ops_next_mono ops st, ?_, ?_, ?_, ?_⟩
  · intro e
    cases e with
    | none => rfl
    | some o =>
      simp only [add_object]
      split <;> rfl
  · intro j
    simp only [remove_object]
    split <;> rfl
  · intro o
    rfl
  · intro hv
    simp only [is_valid_object_id, decide_eq_true_eq] at hv ⊢
    exact ⟨hv.1, lt_of_lt_of_le hv.2 (apply_ops_next_mono ops st)⟩

/-- Witness for C9: id 1 stays valid across a remove of itself, an add
and a fresh allocation, starting from a registry that has allocated
one id. -/
theorem c9_id_validity_monotone_witness :
    is_valid_object_id
        (apply_ops { next_object_id := 2, objects := fun _ => none }
          [RegOp.remove 1, RegOp.alloc { id := 0, kind := ObjKind.sprite, shader := none }])
        1 = true :=
  (c9_id_validity_monotone
      { next_object_id := 2, objects := fun _ => none }
      [RegOp.remove 1, RegOp.alloc { id := 0, kind := ObjKind.sprite, shader := none }]
      1).2.2.2.2 (by decide)

/-!
Remove and add semantics (claims C2 and C5). The concrete states below
correspond to a registry that has allocated id 1 and stored an entity
under it.
-/

/-- The first entity stored under id 1 in the concrete scenarios. -/
def oFirst : Object :=
  { id := 1, kind := ObjKind.sprite, shader := some 0 }

/-- A second, distinct entity carrying the same id 1. -/
def oSecond : Object :=
  { id := 1, kind := ObjKind.sprite, shader := some 1 }

/-- Registry after allocating id 1 and adding oFirst: counter 2,
map holding exactly id 1. -/
def stOne : RegState :=
  { next_object_id := 2
    objects := fun i => if i = 1 then some oFirst else none }

/-- Counterexample to C2: after allocating id 1, storing an entity and
then removing it, get(1) is empty but is_valid(1) is still true —
validity depends only on the counter, which remove never changes —
contradicting the claim that is_valid(1) becomes false. -/
theorem c2_counterexample :
    stOne.objects 1 = some oFirst ∧
    get_object (remove_object stOne 1) ObjKind.sprite 1 = none ∧
    ¬ (is_valid_object_id (remove_object stOne 1) 1 = false) := by
  decide

/-- C2 as amended: after remove(k), get(k) is empty and every other id
still resolves to its entity unchanged; is_valid is entirely unaffected
by the removal (so a removed id stays valid). -/
theorem c2_remove_semantics (st : RegState) (k : Int) (kind : ObjKind) :
    get_object (remove_object st k) kind k = none ∧
    (∀ j : Int, j ≠ k → (remove_object st k).objects j = st.objects j) ∧
    (∀ i : Int,
      is_valid_object_id (remove_object st k) i = is_valid_object_id st i) := by
  by_cases h : (st.objects k).isSome
  · refine ⟨?_, ?_, ?_⟩
    · simp [remove_object, h, get_object]
    · intro j hj
      simp [remove_object, h, hj]
    · intro i
      simp [remove_object, h, is_valid_object_id]
  · have hk : st.objects k = none := Option.not_isSome_iff_eq_none.mp h
    refine ⟨?_, ?_, ?_⟩
    · simp [remove_object, h, get_object, hk]
    · intro j hj
      simp [remove_object, h]
    · intro i
      simp [remove_object, h]

/-- Witness for C2 (amended) on the concrete one-entity registry:
removing id 1 empties get(1) and leaves the entry at id 2 (absent)
unchanged. -/
theorem c2_remove_semantics_witness :
    get_object (remove_object stOne 1) ObjKind.sprite 1 = none ∧
    (remove_object stOne 1).objects 2 = stOne.objects 2 := by
  have h := c2_remove_semantics stOne 1 ObjKind.sprite
  exact ⟨h.1, h.2.1 2 (by decide)⟩

/-- Counterexample to C5: adding a second, distinct entity whose id 1
already has a stored entry (a duplicate) succeeds and overwrites the
map entry, contradicting the claim that a duplicate add fails and
leaves the map unchanged. -/
theorem c5_counterexample :
    stOne.objects oSecond.id = some oFirst ∧
    oSecond ≠ oFirst ∧
    (add_object stOne (some oSecond)).1 = true ∧
    (add_object stOne (some oSecond)).2.objects 1 = some oSecond := by
  decide

/-- C5 as amended: add(entity) fails and leaves the registry unchanged
exactly when the entity is null or its id is outside (0,
next_unallocated); a duplicate id is not rejected — the call succeeds
and the new entity replaces the stored one, all other entries and the
counter unchanged. -/
theorem c5_add_semantics (st : RegState) (e : Option Object) :
    ((add_object st e).1 = false ↔
      (e = none ∨
        ∃ o : Object, e = some o ∧ is_valid_object_id st o.id = false)) ∧
    ((add_object st e).1 = false → (add_object st e).2 = st) ∧
    (∀ o : Object, e = some o → is_valid_object_id st o.id = true →
      (add_object st e).1 = true ∧
      (add_object st e).2.objects o.id = some o ∧
      (∀ j : Int, j ≠ o.id → (add_object st e).2.objects j = st.objects j) ∧
      (add_object st e).2.next_object_id = st.next_object_id) := by
  cases e with
  | none =>
    refine ⟨by simp [add_object], by simp [add_object], ?_⟩
    intro o ho
    exact absurd ho (by simp)
  | some o =>
    cases hv : is_valid_object_id st o.id with
    | false =>
      refine ⟨?_, ?_, ?_⟩
      · simp only [add_object, hv, if_false, Bool.false_eq_true]
        simp [hv]
      · intro _
        simp [add_object, hv]
      · intro o2 ho2 hv2
        rw [Option.some.injEq] at ho2
        subst ho2
        rw [hv] at hv2
        exact absurd hv2 (by simp)
    | true =>
      refine ⟨?_, ?_, ?_⟩
      · simp [add_object, hv]
      · intro hfalse
        rw [show (add_object st (some o)).1 = true by simp [add_object, hv]]
          at hfalse
        exact absurd hfalse (by simp)
      · intro o2 ho2 hv2
        rw [Option.some.injEq] at ho2
        subst ho2
        refine ⟨by simp [add_object, hv], by simp [add_object, hv], ?_, ?_⟩
        · intro j hj
          simp [add_object, hv, hj]
        · simp [add_object, hv]

/-- Witness for C5 (amended) on the concrete one-entity registry:
adding oSecond (valid id 1, already stored) succeeds and stores it. -/
theorem c5_add_semantics_witness :
    (add_object stOne (some oSecond)).1 = true ∧
    (add_object stOne (some oSecond)).2.objects oSecond.id = some oSecond := by
  have h :=
    (c5_add_semantics stOne (some oSecond)).2.2 oSecond rfl (by decide)
  exact ⟨h.1, h.2.1⟩

/-!
Per-frame render passes (map_viewer.cpp:125-257). Each pass walks the
bound map's id list; an id of 0 is an empty slot. For a non-zero id the
C++ resolves the entity through the registry and immediately calls
get_renderable_component() on the shared pointer with no null check; a
failed lookup is therefore a null dereference, modelled as the
nullDeref outcome. A resolved entity whose shader is null is logged and
the function returns, ending that pass early (earlyReturn); control
goes back to MapViewer::render, which still runs the later passes.
-/

/-- How one render pass ended. -/
inductive PassOutcome where
  | completed
  | earlyReturn
  | nullDeref
  deriving DecidableEq

/-- Embedding of the entity loop shared by MapViewer::render_sprites
(map_viewer.cpp:125-173) and MapViewer::render_objects
(map_viewer.cpp:174-221): returns the ids actually drawn, in order,
and the outcome. -/
def render_entities (st : RegState) (kind : ObjKind) :
    List Int → List Int × PassOutcome
  | [] => ([], PassOutcome.completed)
  | k :: rest =>
    if k = 0 then
      render_entities st kind rest
    else
      match get_object st kind k with
      | none => ([], PassOutcome.nullDeref)
      | some o =>
        match o.shader with
        | none => ([], PassOutcome.earlyReturn)
        | some _ =>
          ((render_entities st kind rest).1.cons k,
           (render_entities st kind rest).2)

/-- The id lists a bound map hands to the render passes. -/
structure MapData where
  sprites : List Int
  map_objects : List Int
  deriving DecidableEq

/-- Observable effect of one MapViewer::render call
(map_viewer.cpp:63-72): the object pass, then the sprite pass, then
whether the GUI overlay was drawn (its shader non-null,
map_viewer.cpp:237-241). Each pass is a separate call, so one pass
returning early never stops the later ones. -/
structure FrameTrace where
  objects_pass : List Int × PassOutcome
  sprites_pass : List Int × PassOutcome
  gui_drawn : Bool
  deriving DecidableEq

/-- Embedding of MapViewer::render: map layers are drawn first (not
traced here), then objects, then sprites, then the GUI. -/
def render_frame (st : RegState) (m : MapData) (gui_shader : Option Nat) :
    FrameTrace :=
  { objects_pass := render_entities st ObjKind.mapObject m.map_objects
    sprites_pass := render_entities st ObjKind.sprite m.sprites
    gui_drawn := gui_shader.isSome }


/-- Step equation: an id of 0 is an empty slot and is passed over. -/
theorem render_entities_zero_step (st : RegState) (kind : ObjKind)
    (rest : List Int) :
    render_entities st kind (0 :: rest) = render_entities st kind rest := by
  simp [render_entities]

/-- Step equation: a non-zero id the registry cannot resolve makes the
pass dereference the null shared pointer. -/
theorem render_entities_absent_step (st : RegState) (kind : ObjKind)
    (k : Int) (rest : List Int) (hk : ¬ k = 0)
    (hg : get_object st kind k = none) :
    render_entities st kind (k :: rest) = ([], PassOutcome.nullDeref) := by
  simp [render_entities, hk, hg]

/-- Step equation: a resolved entity with a null shader is logged and
the pass returns early. -/
theorem render_entities_no_shader_step (st : RegState) (kind : ObjKind)
    (k : Int) (rest : List Int) (o : Object) (hk : ¬ k = 0)
    (hg : get_object st kind k = some o) (hs : o.shader = none) :
    render_entities st kind (k :: rest) = ([], PassOutcome.earlyReturn) := by
  simp [render_entities, hk, hg, hs]

/-- Step equation: a resolved entity with a shader is drawn and the
pass continues. -/
theorem render_entities_draw_step (st : RegState) (kind : ObjKind)
    (k : Int) (rest : List Int) (o : Object) (s : Nat) (hk : ¬ k = 0)
    (hg : get_object st kind k = some o) (hs : o.shader = some s) :
    render_entities st kind (k :: rest)
      = ((render_entities st kind rest).1.cons k,
         (render_entities st kind rest).2) := by
  simp [render_entities, hk, hg, hs]

/-- A pass that completes on a prefix continues into the rest of the
list, drawing the prefix's entities first. -/
theorem render_entities_append (st : RegState) (kind : ObjKind)
    (pre rest : List Int)
    (hpre : (render_entities st kind pre).2 = PassOutcome.completed) :
    render_entities st kind (pre ++ rest)
      = ((render_entities st kind pre).1 ++ (render_entities st kind rest).1,
         (render_entities st kind rest).2) := by
  induction pre with
  | nil => simp [render_entities]
  | cons k pre ih =>
    rw [List.cons_append]
    by_cases hk : k = 0
    · subst hk
      rw [render_entities_zero_step] at hpre ⊢
      rw [render_entities_zero_step st kind pre]
      exact ih hpre
    · cases hg : get_object st kind k with
      | none =>
        rw [render_entities_absent_step st kind k pre hk hg] at hpre
        exact absurd hpre (by simp)
      | some o =>
        cases hs : o.shader with
        | none =>
          rw [render_entities_no_shader_step st kind k pre o hk hg hs] at hpre
          exact absurd hpre (by simp)
        | some s =>
          rw [render_entities_draw_step st kind k pre o s hk hg hs] at hpre
          rw [render_entities_draw_step st kind k (pre ++ rest) o s hk hg hs]
          rw [render_entities_draw_step st kind k pre o s hk hg hs]
          simp only [List.cons] at hpre ⊢
          rw [ih hpre]
          simp

/-- Registry for the two-sprite render scenario: id 1 resolves to a
sprite with a null shader, id 2 to a renderable sprite. -/
def stTwoSprites : RegState :=
  { next_object_id := 3
    objects := fun i =>
      if i = 1 then some { id := 1, kind := ObjKind.sprite, shader := none }
      else if i = 2 then some { id := 2, kind := ObjKind.sprite, shader := some 0 }
      else none }

/-- Counterexample to C3: ids 1 and 2 are both listed and resolvable
and entity 2 has a shader; the claim says entity 1 alone is skipped
and entity 2 is still rendered, but the pass returns early and entity
2 is not drawn. -/
theorem c3_counterexample :
    get_object stTwoSprites ObjKind.sprite 1
      = some { id := 1, kind := ObjKind.sprite, shader := none } ∧
    get_object stTwoSprites ObjKind.sprite 2
      = some { id := 2, kind := ObjKind.sprite, shader := some 0 } ∧
    render_entities stTwoSprites ObjKind.sprite [1, 2]
      = ([], PassOutcome.earlyReturn) ∧
    ¬ ((2 : Int) ∈ (render_entities stTwoSprites ObjKind.sprite [1, 2]).1) := by
  decide

/-- C3 as amended: when the pass meets a non-zero id whose resolved
entity has a null shader, it logs and returns early — entities before
it in the list stay drawn, the rest of that pass is skipped — and the
later passes of the frame (here the GUI) still run. -/
theorem c3_null_shader_ends_pass (st : RegState) (kind : ObjKind)
    (pre post : List Int) (k : Int) (o : Object) (mobs : List Int)
    (g : Option Nat)
    (hpre : (render_entities st kind pre).2 = PassOutcome.completed)
    (hk : ¬ k = 0) (ho : get_object st kind k = some o)
    (hs : o.shader = none) :
    render_entities st kind (pre ++ k :: post)
      = ((render_entities st kind pre).1, PassOutcome.earlyReturn) ∧
    (render_frame st { sprites := pre ++ k :: post, map_objects := mobs }
        g).gui_drawn
      = g.isSome := by
  refine ⟨?_, rfl⟩
  rw [render_entities_append st kind pre (k :: post) hpre]
  rw [render_entities_no_shader_step st kind k post o hk ho hs]
  simp

/-- Witness for C3 (amended): the concrete two-sprite scenario of the
counterexample, with the drawn prefix empty. -/
theorem c3_null_shader_ends_pass_witness :
    render_entities stTwoSprites ObjKind.sprite ([] ++ 1 :: [2])
      = (([] : List Int), PassOutcome.earlyReturn) := by
  have h := c3_null_shader_ends_pass stTwoSprites ObjKind.sprite [] [2] 1
    { id := 1, kind := ObjKind.sprite, shader := none }
    [] none (by decide) (by decide) (by decide) (by decide)
  exact h.1

/-- C4: evaluation at the failing input. With id 1 listed but absent
from the registry, the sprite pass dereferences the null result of
get_object (the nullDeref outcome) instead of continuing past it. -/
theorem c4_absent_entity_dereferenced :
    get_object initRegState ObjKind.sprite 1 = none ∧
    render_entities initRegState ObjKind.sprite [1]
      = ([], PassOutcome.nullDeref) := by
  decide

/-!
Window construction (game_window.cpp:71-143). The fallible collaborator
calls are abstracted by a WinEnv record of success flags; the
process-wide shared state is whether the windowing subsystem (SDL) is
initialised and the index of live windows. A thrown InitException
becomes an Except error. The constructor:
initialises the subsystem when the index is empty (init_sdl, may
fail); creates the OS window — on failure it calls deinit_sdl
UNCONDITIONALLY (game_window.cpp:108) and throws; runs init_gl
including the first surface build — on failure it destroys the OS
window, deinitialises the subsystem only if the index is empty
(game_window.cpp:136), and rethrows; only on full success is the
window added to the index (game_window.cpp:142).
-/

/-- Which construction step threw. -/
inductive CtorFailure where
  | sdlInitFail
  | createWindowFail
  | glInitFail
  deriving DecidableEq

/-- Success flags for the constructor's fallible collaborator calls. -/
structure WinEnv where
  sdl_init_ok : Bool
  create_window_ok : Bool
  gl_ok : Bool
  deriving DecidableEq

/-- Process-wide windowing state: the shared subsystem flag, the window
index (ids of fully constructed windows), and the next OS window id. -/
structure WinSysState where
  sdl_initialized : Bool
  windows : List Nat
  next_win_handle : Nat
  deriving DecidableEq

/-- Embedding of GameWindow::GameWindow (game_window.cpp:71-143);
returns the new window's id on success. -/
def construct_window (env : WinEnv) (st : WinSysState) :
    Except CtorFailure Nat × WinSysState :=
  if st.windows.isEmpty ∧ env.sdl_init_ok = false then
    (Except.error CtorFailure.sdlInitFail, st)
  else
    let st1 :=
      if st.windows.isEmpty then { st with sdl_initialized := true } else st
    if env.create_window_ok = false then
      (Except.error CtorFailure.createWindowFail,
       { st1 with sdl_initialized := false })
    else
      let st2 := { st1 with next_win_handle := st1.next_win_handle + 1 }
      if env.gl_ok = false then
        (Except.error CtorFailure.glInitFail,
         if st2.windows.isEmpty then { st2 with sdl_initialized := false }
         else st2)
      else
        (Except.ok st1.next_win_handle,
         { st2 with windows := st1.next_win_handle :: st2.windows })

/-- C7: evaluation at the failing input. Constructing a second window
while window 0 is live, with SDL_CreateWindow failing: InitFailure is
reported and the index is untouched as the claim says, but the shared
windowing subsystem — not a resource this construction acquired — is
torn down under the live window, so construction is not atomic to the
caller. -/
theorem c7_second_window_ctor_tears_down_subsystem :
    (construct_window
        { sdl_init_ok := true, create_window_ok := false, gl_ok := true }
        { sdl_initialized := true, windows := [0], next_win_handle := 1 }).1
      = Except.error CtorFailure.createWindowFail ∧
    (construct_window
        { sdl_init_ok := true, create_window_ok := false, gl_ok := true }
        { sdl_initialized := true, windows := [0], next_win_handle := 1 }).2
      = { sdl_initialized := false, windows := [0], next_win_handle := 1 } := by
  exact ⟨rfl, rfl⟩

/-!
Surface initialisation (game_window.cpp:269-451). The per-window fields
touched by init_surface/deinit_surface become a WinGeomState record;
the fallible EGL calls are abstracted by SurfEnv success flags; a
thrown InitException becomes an error result paired with the state as
mutated up to the throw.
-/

/-- The pending-action tag (game_window.hpp InitAction). -/
inductive InitAction where
  | doNothing
  | doInit
  | doDeinit
  deriving DecidableEq

/-- Which surface step threw. -/
inductive SurfFailure where
  | destroySurfaceFail
  | createSurfaceFail
  | makeCurrentFail
  deriving DecidableEq

/-- Success flags for the fallible backend calls of a surface rebuild. -/
structure SurfEnv where
  destroy_ok : Bool
  create_ok : Bool
  make_current_ok : Bool
  deriving DecidableEq

/-- The per-window fields read and written by the surface lifecycle. -/
structure WinGeomState where
  window_x : Int
  window_y : Int
  window_width : Int
  window_height : Int
  visible : Bool
  foreground : Bool
  was_foreground : Bool
  change_surface : InitAction
  deriving DecidableEq

/-- Embedding of GameWindow::deinit_surface (game_window.cpp:425-451):
when a surface is live, destroy it (eglDestroySurface may fail, thrown
before the flags are cleared); then clear visible and the pending tag. -/
def deinit_surface (env : SurfEnv) (st : WinGeomState) :
    Except SurfFailure Unit × WinGeomState :=
  if st.visible ∧ env.destroy_ok = false then
    (Except.error SurfFailure.destroySurfaceFail, st)
  else
    (Except.ok (),
     { st with visible := false, change_surface := InitAction.doNothing })

/-- Embedding of GameWindow::init_surface(x, y, w, h)
(game_window.cpp:299-422): tear down the old surface, set the pending
tag to DO_INIT, create the new surface (window or pbuffer; may fail),
connect the context (may fail), and only then set was_foreground,
visible, the tag, and the recorded geometry. -/
def init_surface (env : SurfEnv) (st : WinGeomState) (x y w h : Int) :
    Except SurfFailure Unit × WinGeomState :=
  match deinit_surface env st with
  | (Except.error e, st1) => (Except.error e, st1)
  | (Except.ok _, st1) =>
    let st2 := { st1 with change_surface := InitAction.doInit }
    if env.create_ok = false then
      (Except.error SurfFailure.createSurfaceFail, st2)
    else if env.make_current_ok = false then
      (Except.error SurfFailure.makeCurrentFail, st2)
    else
      (Except.ok (),
       { st2 with
          was_foreground := st2.foreground
          visible := true
          change_surface := InitAction.doNothing
          window_x := x
          window_y := y
          window_width := w
          window_height := h })

/-- Embedding of GameWindow::get_size (game_window.cpp:611-613). -/
def get_size (st : WinGeomState) : Int × Int :=
  (st.window_width, st.window_height)

/-- C10: the recorded geometry is written only at the end of a fully
successful init_surface; whenever any fallible step throws, get_size
and the recorded position still report the previous geometry, and on
success they report exactly the new one. -/
theorem c10_geometry_only_on_success (env : SurfEnv) (st : WinGeomState)
    (x y w h : Int) :
    ((init_surface env st x y w h).1 ≠ Except.ok () →
      get_size (init_surface env st x y w h).2 = get_size st ∧
      (init_surface env st x y w h).2.window_x = st.window_x ∧
      (init_surface env st x y w h).2.window_y = st.window_y) ∧
    ((init_surface env st x y w h).1 = Except.ok () →
      get_size (init_surface env st x y w h).2 = (w, h) ∧
      (init_surface env st x y w h).2.window_x = x ∧
      (init_surface env st x y w h).2.window_y = y) := by
  by_cases hd : st.visible ∧ env.destroy_ok = false
  · constructor
    · intro _
      simp [init_surface, deinit_surface, hd, get_size]
    · intro hok
      simp [init_surface, deinit_surface, hd] at hok
  · by_cases hc : env.create_ok = false
    · constructor
      · intro _
        simp [init_surface, deinit_surface, hd, hc, get_size]
      · intro hok
        simp [init_surface, deinit_surface, hd, hc] at hok
    · by_cases hm : env.make_current_ok = false
      · constructor
        · intro _
          simp [init_surface, deinit_surface, hd, hc, hm, get_size]
        · intro hok
          simp [init_surface, deinit_surface, hd, hc, hm] at hok
      · constructor
        · intro hbad
          exact absurd (by simp [init_surface, deinit_surface, hd, hc, hm])
            hbad
        · intro _
          simp [init_surface, deinit_surface, hd, hc, hm, get_size]

/-- Witness for C10: a failed surface creation leaves the recorded
100 by 200 geometry readable, and a fully successful rebuild installs
the new one. -/
theorem c10_geometry_only_on_success_witness :
    get_size
        (init_surface
          { destroy_ok := true, create_ok := false, make_current_ok := true }
          { window_x := 0, window_y := 0, window_width := 100
            window_height := 200, visible := true, foreground := true
            was_foreground := true, change_surface := InitAction.doNothing }
          5 6 7 8).2
      = (100, 200) := by
  have h := (c10_geometry_only_on_success
    { destroy_ok := true, create_ok := false, make_current_ok := true }
    { window_x := 0, window_y := 0, window_width := 100
      window_height := 200, visible := true, foreground := true
      was_foreground := true, change_surface := InitAction.doNothing }
    5 6 7 8).1 (by intro hok; exact absurd hok (by simp [init_surface, deinit_surface]))
  exact h.1
